import Mathlib

/-!
Shallow embedding of the proto-segmentation training code:
`segmentation/data_module.py` (PatchClassificationDataModule) and
`sliding_window/module.py` (SlidingWindowModule), with theorems checking
the natural-language specification against it.

Tensor-level quantities (losses, norms, counts of correct predictions) are
represented as rationals/naturals produced by the network forward pass; the
orchestration logic around them (loss combination, metric accumulation,
optimizer selection and stepping, checkpoint saving, dataloader
construction) is embedded faithfully from the Python source.
-/

/-! ### `segmentation/data_module.py` -/

/-- `segmentation.dataset.PatchClassificationDataset` as constructed by the
data module: only the constructor arguments matter here. -/
structure PatchClassificationDataset where
  split_key : String
  is_eval : Bool
  model_image_size : Nat
  push_prototypes : Bool := false
  length_multiplier : Int := 1
deriving DecidableEq, Repr

/-- A `torch.utils.data.DataLoader` as configured by
`PatchClassificationDataModule.get_data_loader`. -/
structure DataLoader where
  dataset : PatchClassificationDataset
  shuffle : Bool
  num_workers : Int
deriving DecidableEq, Repr

/-- `PatchClassificationDataModule` after `__init__` has run:
`dataloader_n_jobs` already holds the resolved worker count. -/
structure PatchClassificationDataModule where
  dataloader_n_jobs : Int
  model_image_size : Nat
  push_length_multiplier : Int
deriving DecidableEq, Repr

namespace PatchClassificationDataModule

/-- `PatchClassificationDataModule.__init__`:
`self.dataloader_n_jobs = dataloader_n_jobs if dataloader_n_jobs != -1 else
multiprocessing.cpu_count()`. `cpu_count` is the value
`multiprocessing.cpu_count()` returns. -/
def init (model_image_size : Nat) (dataloader_n_jobs : Int) (cpu_count : Nat)
    (push_length_multiplier : Int := 1) : PatchClassificationDataModule :=
  { dataloader_n_jobs :=
      if dataloader_n_jobs ≠ -1 then dataloader_n_jobs else (cpu_count : Int)
    model_image_size := model_image_size
    push_length_multiplier := push_length_multiplier }

/-- `os.path.join(data_path, 'annotations')`. -/
def annotationsPath (data_path : String) : String :=
  data_path ++ "/" ++ "annotations"

/-- `PatchClassificationDataModule.prepare_data`: raises `ValueError` when
`os.path.exists(os.path.join(data_path, 'annotations'))` is false, else
returns `None`.  The filesystem is a predicate `path_exists`. -/
def prepare_data (path_exists : String → Bool) (data_path : String) :
    Except String Unit :=
  if ¬ path_exists (annotationsPath data_path) then
    Except.error "Please download dataset and preprocess it using 'preprocess.py' script"
  else
    Except.ok ()

/-- `PatchClassificationDataModule.get_data_loader`. -/
def get_data_loader (dm : PatchClassificationDataModule)
    (dataset : PatchClassificationDataset) : DataLoader :=
  { dataset := dataset
    shuffle := !dataset.is_eval
    num_workers := dm.dataloader_n_jobs }

/-- `PatchClassificationDataModule.train_dataloader`. -/
def train_dataloader (dm : PatchClassificationDataModule) : DataLoader :=
  dm.get_data_loader
    { split_key := "train", is_eval := false, model_image_size := dm.model_image_size }

/-- `PatchClassificationDataModule.val_dataloader`. -/
def val_dataloader (dm : PatchClassificationDataModule) : DataLoader :=
  dm.get_data_loader
    { split_key := "val", is_eval := true, model_image_size := dm.model_image_size }

/-- `PatchClassificationDataModule.test_dataloader` (the source constructs
the dataset with `split_key='val'`: "We do not have test set for
cityscapes"). -/
def test_dataloader (dm : PatchClassificationDataModule) : DataLoader :=
  dm.get_data_loader
    { split_key := "val", is_eval := true, model_image_size := dm.model_image_size }

/-- `PatchClassificationDataModule.train_push_dataloader`. -/
def train_push_dataloader (dm : PatchClassificationDataModule) : DataLoader :=
  dm.get_data_loader
    { split_key := "train", is_eval := true, model_image_size := dm.model_image_size
      push_prototypes := true, length_multiplier := dm.push_length_multiplier }

end PatchClassificationDataModule

/-! ### `sliding_window/module.py` -/

/-- One split's metric accumulators, the keys of `reset_metrics()`. -/
structure Metrics where
  n_examples : Nat
  n_correct : Nat
  n_batches : Nat
  cross_entropy : Rat
  cluster_cost : Rat
  loss : Rat
  separation_cost : Rat
  avg_separation_cost : Rat
deriving DecidableEq, Repr

/-- `reset_metrics()`: every accumulator zero. -/
def reset_metrics : Metrics :=
  { n_examples := 0, n_correct := 0, n_batches := 0, cross_entropy := 0
    cluster_cost := 0, loss := 0, separation_cost := 0, avg_separation_cost := 0 }

/-- The four keys of `self.metrics` set up in `__init__`. -/
inductive Split where
  | train
  | val
  | test
  | train_last_layer
deriving DecidableEq, Repr

/-- `self.metrics`: a dictionary with exactly the four split keys. -/
structure MetricsMap where
  train : Metrics
  val : Metrics
  test : Metrics
  train_last_layer : Metrics
deriving DecidableEq, Repr

def MetricsMap.get (mm : MetricsMap) : Split → Metrics
  | .train => mm.train
  | .val => mm.val
  | .test => mm.test
  | .train_last_layer => mm.train_last_layer

def MetricsMap.set (mm : MetricsMap) : Split → Metrics → MetricsMap
  | .train, v => { mm with train := v }
  | .val, v => { mm with val := v }
  | .test, v => { mm with test := v }
  | .train_last_layer, v => { mm with train_last_layer := v }

/-- `self.metrics` right after `__init__` / after the reset loop in
`on_train_epoch_start`: every split mapped to `reset_metrics()`. -/
def MetricsMap.allReset : MetricsMap :=
  { train := reset_metrics, val := reset_metrics
    test := reset_metrics, train_last_layer := reset_metrics }

/-- A `torch.optim` optimizer as the module manipulates it: the `lr` of each
param group, the constructor-default `lr` (`optimizer.defaults['lr']`), and
an abstract count of `optimizer.step()` calls standing for its internal
state (moment buffers etc.). -/
structure OptimizerState where
  lrs : List Rat
  default_lr : Rat
  step_count : Nat
deriving DecidableEq, Repr

/-- `update_lr_warmup(optimizer, current_step, warmup_batches)`: inside the
warm-up window it sets every param group's `lr` to
`min(1., (current_step + 1) / warmup_batches) * optimizer.defaults['lr']`. -/
def update_lr_warmup (o : OptimizerState) (current_step : Nat)
    (warmup_batches : Int) : OptimizerState :=
  if 0 < warmup_batches then
    if (current_step : Int) < warmup_batches then
      { o with lrs := o.lrs.map (fun _ =>
          min 1 (((current_step : Rat) + 1) / (warmup_batches : Rat)) * o.default_lr) }
    else o
  else o

/-- The gin-configured hyperparameters of `SlidingWindowModule.__init__`
that the training-loop logic reads. -/
structure ModuleCfg where
  last_layer_only : Bool
  class_specific : Bool
  num_warm_epochs : Nat
  loss_weight_crs_ent : Rat
  loss_weight_clst : Rat
  loss_weight_sep : Rat
  loss_weight_l1 : Rat
  warmup_batches : Int
  gradient_clipping : Option Rat
deriving DecidableEq, Repr

/-- The module's mutable state during training.  `ppnet_version` and
`grad_version` are abstract counters standing for the network's parameter
values and gradient buffers: any operation that mutates them increments the
counter, so "unchanged counter" models "untouched tensors". -/
structure ModuleState where
  metrics : MetricsMap
  warm_optim : OptimizerState
  main_optim : OptimizerState
  ppnet_version : Nat
  grad_version : Nat
  best_acc : Rat
  current_epoch : Nat
  global_step : Nat
deriving DecidableEq, Repr

/-- The tensor reductions one batch produces inside `_step`, abstracting the
`ppnet` forward pass and the tensor arithmetic on its outputs.  The fields
prefixed `cs_` are the quantities computed in the `class_specific` branch
(cluster cost over correct-class prototypes, separation cost, masked L1
norm); those prefixed `ncs_` are the quantities computed in the other branch
(cluster cost over all prototypes, unmasked L1 norm of the last layer). -/
structure BatchEval where
  cross_entropy : Rat
  cs_cluster_cost : Rat
  cs_separation_cost : Rat
  cs_avg_separation_cost : Rat
  cs_l1 : Rat
  ncs_cluster_cost : Rat
  ncs_l1 : Rat
  batch_size : Nat
  n_correct : Nat
deriving DecidableEq, Repr

namespace SlidingWindowModule

/-- The `cluster_cost` value `_step` computes for the batch. -/
def clusterCost (cfg : ModuleCfg) (be : BatchEval) : Rat :=
  if cfg.class_specific then be.cs_cluster_cost else be.ncs_cluster_cost

/-- The `separation_cost` value in `_step`: initialized to `0` before the
branch and only assigned in the `class_specific` branch. -/
def separationCost (cfg : ModuleCfg) (be : BatchEval) : Rat :=
  if cfg.class_specific then be.cs_separation_cost else 0

/-- The `l1` value `_step` computes for the batch. -/
def l1Term (cfg : ModuleCfg) (be : BatchEval) : Rat :=
  if cfg.class_specific then be.cs_l1 else be.ncs_l1

/-- The `loss` expression of `_step` (lines 185-193 of the source): in the
`class_specific` branch a four-term weighted sum; in the other branch a
three-term sum whose last summand is `self.loss_weight_sep * l1`. -/
def stepLoss (cfg : ModuleCfg) (be : BatchEval) : Rat :=
  if cfg.class_specific then
    cfg.loss_weight_crs_ent * be.cross_entropy
      + cfg.loss_weight_clst * be.cs_cluster_cost
      + cfg.loss_weight_sep * be.cs_separation_cost
      + cfg.loss_weight_l1 * be.cs_l1
  else
    cfg.loss_weight_crs_ent * be.cross_entropy
      + cfg.loss_weight_clst * be.ncs_cluster_cost
      + cfg.loss_weight_sep * be.ncs_l1

/-- The metric updates `_step` applies to `self.metrics[split_key]`:
`separation_cost`/`avg_separation_cost` only accumulate in the
`class_specific` branch; `n_examples`, `n_correct`, `n_batches`,
`cross_entropy`, `cluster_cost` and `loss` accumulate in every call. -/
def stepMetrics (cfg : ModuleCfg) (be : BatchEval) (old : Metrics) : Metrics :=
  { n_examples := old.n_examples + be.batch_size
    n_correct := old.n_correct + be.n_correct
    n_batches := old.n_batches + 1
    cross_entropy := old.cross_entropy + be.cross_entropy
    cluster_cost := old.cluster_cost + clusterCost cfg be
    loss := old.loss + stepLoss cfg be
    separation_cost := old.separation_cost
      + (if cfg.class_specific then be.cs_separation_cost else 0)
    avg_separation_cost := old.avg_separation_cost
      + (if cfg.class_specific then be.cs_avg_separation_cost else 0) }

end SlidingWindowModule

/-- Which of the two optimizers returned by `configure_optimizers` an
operation targets: `self.optimizers()` yields `(warm_optim, main_optim)`. -/
inductive OptTag where
  | warm
  | main
deriving DecidableEq, Repr

/-- An optimizer/gradient operation `_step` performs in its training branch,
recorded in order. -/
inductive OptimEvent where
  | lr_warmup_call (tag : OptTag) (current_step : Nat)
  | zero_grad (tag : OptTag)
  | backward
  | clip_grad (c : Rat)
  | optstep (tag : OptTag)
deriving DecidableEq, Repr

/-- The training-phase freezing function `on_train_epoch_start` invokes
(`warm_only`, `joint`, `last_only` from `train_and_test`, external to the
two source files). -/
inductive PhaseFn where
  | warm_only
  | joint
  | last_only
deriving DecidableEq, Repr

/-- One invocation of the external `save.save_model_w_condition`, recorded
with the arguments `on_validation_epoch_end` passes it. -/
structure SaveEvent where
  model_name : String
  accu : Rat
  target_accu : Rat
deriving DecidableEq, Repr

def ModuleState.getOptim (m : ModuleState) : OptTag → OptimizerState
  | .warm => m.warm_optim
  | .main => m.main_optim

def ModuleState.setOptim (m : ModuleState) : OptTag → OptimizerState → ModuleState
  | .warm, o => { m with warm_optim := o }
  | .main, o => { m with main_optim := o }

namespace SlidingWindowModule

/-- The optimizer `_step` selects in its training branch: `main_optim` when
`self.last_layer_only`, else `warm_optim` while
`self.current_epoch < self.num_warm_epochs` and `main_optim` afterwards. -/
def chosenOptimizer (cfg : ModuleCfg) (m : ModuleState) : OptTag :=
  if cfg.last_layer_only then OptTag.main
  else if m.current_epoch < cfg.num_warm_epochs then OptTag.warm
  else OptTag.main

/-- `SlidingWindowModule._step(split_key, batch)`: accumulates the batch's
metrics into `self.metrics[split_key]`, and — only when `split_key ==
'train'` — selects an optimizer, applies the lr warm-up, zeroes gradients,
backpropagates, optionally clips gradients and steps the optimizer.  The
returned list records the optimizer/gradient operations performed. -/
def _step (cfg : ModuleCfg) (m : ModuleState) (split : Split) (be : BatchEval) :
    List OptimEvent × ModuleState :=
  let m1 : ModuleState :=
    { m with metrics := m.metrics.set split (stepMetrics cfg be (m.metrics.get split)) }
  if split = Split.train then
    let tag := chosenOptimizer cfg m
    let opt0 := m1.getOptim tag
    let opt1 := update_lr_warmup opt0 m.global_step cfg.warmup_batches
    let opt2 := { opt1 with step_count := opt1.step_count + 1 }
    let clip_events := match cfg.gradient_clipping with
      | some c => [OptimEvent.clip_grad c]
      | none => []
    let events := [OptimEvent.lr_warmup_call tag m.global_step,
        OptimEvent.zero_grad tag, OptimEvent.backward]
      ++ clip_events ++ [OptimEvent.optstep tag]
    let m2 := (m1.setOptim tag opt2)
    (events, { m2 with ppnet_version := m2.ppnet_version + 1,
                       grad_version := m2.grad_version + 1 })
  else
    ([], m1)

/-- `training_step` delegates to `_step('train', batch)`. -/
def training_step (cfg : ModuleCfg) (m : ModuleState) (be : BatchEval) :
    List OptimEvent × ModuleState :=
  _step cfg m Split.train be

/-- `validation_step` delegates to `_step('val', batch)`. -/
def validation_step (cfg : ModuleCfg) (m : ModuleState) (be : BatchEval) :
    List OptimEvent × ModuleState :=
  _step cfg m Split.val be

/-- `test_step` delegates to `_step('test', batch)`. -/
def test_step (cfg : ModuleCfg) (m : ModuleState) (be : BatchEval) :
    List OptimEvent × ModuleState :=
  _step cfg m Split.test be

/-- The phase-freezing function `on_train_epoch_start` invokes:
`last_only` when `self.last_layer_only`, else `warm_only` while
`self.current_epoch < self.num_warm_epochs` and `joint` afterwards. -/
def phaseChoice (cfg : ModuleCfg) (m : ModuleState) : PhaseFn :=
  if cfg.last_layer_only then PhaseFn.last_only
  else if m.current_epoch < cfg.num_warm_epochs then PhaseFn.warm_only
  else PhaseFn.joint

/-- `SlidingWindowModule.on_train_epoch_start`: invokes the phase function
and resets every split's metrics to `reset_metrics()`. -/
def on_train_epoch_start (cfg : ModuleCfg) (m : ModuleState) :
    PhaseFn × ModuleState :=
  (phaseChoice cfg m, { m with metrics := MetricsMap.allReset })

/-- The `stage_key` chosen in `on_validation_epoch_end`: `'push'` when
`self.last_layer_only`, `'warmup'` during warm-up epochs, `'nopush'`
afterwards. -/
def stageKey (cfg : ModuleCfg) (m : ModuleState) : String :=
  if cfg.last_layer_only then "push"
  else if m.current_epoch < cfg.num_warm_epochs then "warmup"
  else "nopush"

/-- The epoch's validation accuracy as `on_validation_epoch_end` computes
it: `self.metrics['val']['n_correct'] / self.metrics['val']['n_examples']`
(Python true division; total in `Rat` with `x / 0 = 0`, meaningful when
`n_examples ≠ 0` — the Python code raises there instead). -/
def valAcc (m : ModuleState) : Rat :=
  (m.metrics.val.n_correct : Rat) / (m.metrics.val.n_examples : Rat)

/-- `SlidingWindowModule.on_validation_epoch_end`: when the epoch's
validation accuracy strictly exceeds `self.best_acc` it updates `best_acc`
and invokes `save_model_w_condition` for `'<stage_key>_best'`; it then
always invokes `save_model_w_condition` for `'<stage_key>_last'`.  Both
invocations pass `accu=val_acc, target_accu=0.0`.  The external
`save_model_w_condition` and the `lr_scheduler.step(val_acc)` call are
outside the embedded sources; the returned list records the save
invocations in order. -/
def on_validation_epoch_end (cfg : ModuleCfg) (m : ModuleState) :
    List SaveEvent × ModuleState :=
  let va := valAcc m
  let stage := stageKey cfg m
  let last_event : SaveEvent := { model_name := stage ++ "_last", accu := va, target_accu := 0 }
  if m.best_acc < va then
    ([{ model_name := stage ++ "_best", accu := va, target_accu := 0 }, last_event],
     { m with best_acc := va })
  else
    ([last_event], m)

end SlidingWindowModule

/-! ### Helper lemmas -/

theorem MetricsMap.get_set_self (mm : MetricsMap) (s : Split) (v : Metrics) :
    (mm.set s v).get s = v := by
  cases s <;> rfl

theorem MetricsMap.get_set_of_ne (mm : MetricsMap) (s t : Split) (v : Metrics)
    (h : t ≠ s) : (mm.set s v).get t = mm.get t := by
  cases s <;> cases t <;> simp_all [MetricsMap.set, MetricsMap.get]

theorem ModuleState.setOptim_metrics (m : ModuleState) (tag : OptTag)
    (o : OptimizerState) : (m.setOptim tag o).metrics = m.metrics := by
  cases tag <;> rfl

theorem ModuleState.getOptim_setOptim_of_ne (m : ModuleState) (tag t : OptTag)
    (o : OptimizerState) (h : t ≠ tag) : (m.setOptim tag o).getOptim t = m.getOptim t := by
  cases tag <;> cases t <;> simp_all [ModuleState.setOptim, ModuleState.getOptim]

/-! ### Theorems for the data module claims -/

/-- C6: `prepare_data` raises a `ValueError` if and only if the directory
`data_path/annotations` does not exist; when it exists, `prepare_data`
returns normally (and, being a pure check in the embedding, changes no
state). -/
theorem C6_prepare_data_raises_iff (path_exists : String → Bool) (data_path : String) :
    ((∃ msg, PatchClassificationDataModule.prepare_data path_exists data_path
        = Except.error msg)
      ↔ path_exists (PatchClassificationDataModule.annotationsPath data_path) = false)
    ∧ (path_exists (PatchClassificationDataModule.annotationsPath data_path) = true
      → PatchClassificationDataModule.prepare_data path_exists data_path
        = Except.ok ()) := by
  cases h : path_exists (PatchClassificationDataModule.annotationsPath data_path) <;>
    simp [PatchClassificationDataModule.prepare_data, h]

/-- C7: every dataloader the data module constructs receives
`num_workers = dataloader_n_jobs`, except that `-1` resolves to
`multiprocessing.cpu_count()` in `__init__`; the four named dataloaders all
inherit that worker count through `get_data_loader`. -/
theorem C7_num_workers (model_image_size : Nat) (dataloader_n_jobs : Int)
    (cpu_count : Nat) (push_length_multiplier : Int)
    (dataset : PatchClassificationDataset) :
    ((PatchClassificationDataModule.init model_image_size dataloader_n_jobs
        cpu_count push_length_multiplier).get_data_loader dataset).num_workers
      = (if dataloader_n_jobs = -1 then (cpu_count : Int) else dataloader_n_jobs)
    ∧ (∀ dm : PatchClassificationDataModule,
        (dm.get_data_loader dataset).num_workers = dm.dataloader_n_jobs
        ∧ dm.train_dataloader.num_workers = dm.dataloader_n_jobs
        ∧ dm.val_dataloader.num_workers = dm.dataloader_n_jobs
        ∧ dm.test_dataloader.num_workers = dm.dataloader_n_jobs
        ∧ dm.train_push_dataloader.num_workers = dm.dataloader_n_jobs) := by
  refine ⟨?_, fun dm => ⟨rfl, rfl, rfl, rfl, rfl⟩⟩
  by_cases h : dataloader_n_jobs = -1 <;>
    simp [PatchClassificationDataModule.init,
      PatchClassificationDataModule.get_data_loader, h]

/-- C9: `test_dataloader` builds its dataset on the validation split
(`split_key='val'`) with `is_eval=True`, so the `'test'` metrics are
computed on validation data. -/
theorem C9_test_dataloader_uses_val (dm : PatchClassificationDataModule) :
    (dm.test_dataloader).dataset.split_key = "val"
    ∧ (dm.test_dataloader).dataset.is_eval = true :=
  ⟨rfl, rfl⟩

/-- C10: `get_data_loader` sets `shuffle` to the negation of the dataset's
`is_eval` flag; hence the train dataloader shuffles and the val, test and
train-push dataloaders never do. -/
theorem C10_shuffle_rule (dm : PatchClassificationDataModule)
    (dataset : PatchClassificationDataset) :
    (dm.get_data_loader dataset).shuffle = !dataset.is_eval
    ∧ dm.train_dataloader.shuffle = true
    ∧ dm.val_dataloader.shuffle = false
    ∧ dm.test_dataloader.shuffle = false
    ∧ dm.train_push_dataloader.shuffle = false :=
  ⟨rfl, rfl, rfl, rfl, rfl⟩

/-! ### More helper lemmas -/

theorem ModuleState.getOptim_setOptim_self (m : ModuleState) (tag : OptTag)
    (o : OptimizerState) : (m.setOptim tag o).getOptim tag = o := by
  cases tag <;> rfl

theorem update_lr_warmup_step_count (o : OptimizerState) (current_step : Nat)
    (warmup_batches : Int) :
    (update_lr_warmup o current_step warmup_batches).step_count = o.step_count := by
  unfold update_lr_warmup
  by_cases h1 : 0 < warmup_batches <;> by_cases h2 : (current_step : Int) < warmup_batches <;>
    simp [h1, h2]

theorem append_best_ne_append_last (s : String) : s ++ "_best" ≠ s ++ "_last" := by
  intro h
  have h2 := congrArg String.data h
  simp [String.data_append] at h2

/-- `_step` updates `self.metrics` by replacing the stepped split's entry
with its accumulated version, on every split (the training branch touches
only optimizers, gradients and parameters afterwards). -/
theorem SlidingWindowModule._step_metrics (cfg : ModuleCfg) (m : ModuleState)
    (s : Split) (be : BatchEval) :
    (SlidingWindowModule._step cfg m s be).2.metrics
      = m.metrics.set s (SlidingWindowModule.stepMetrics cfg be (m.metrics.get s)) := by
  unfold SlidingWindowModule._step
  by_cases h : s = Split.train
  · subst h
    simp [ModuleState.setOptim_metrics]
  · simp [h]

/-! ### C1: the loss combination -/

/-- The loss C1's sentence describes: on every step, the weighted sum of
the four computed terms (cross-entropy, cluster cost, separation cost, L1
sparsity), each multiplied by its corresponding configured weight —
`loss_weight_crs_ent`, `loss_weight_clst`, `loss_weight_sep`,
`loss_weight_l1` respectively. -/
def claimedLoss (cfg : ModuleCfg) (be : BatchEval) : Rat :=
  cfg.loss_weight_crs_ent * be.cross_entropy
    + cfg.loss_weight_clst * SlidingWindowModule.clusterCost cfg be
    + cfg.loss_weight_sep * SlidingWindowModule.separationCost cfg be
    + cfg.loss_weight_l1 * SlidingWindowModule.l1Term cfg be

/-- An optimizer with no param groups, for concrete test states. -/
def zeroOptimizer : OptimizerState :=
  { lrs := [], default_lr := 0, step_count := 0 }

/-- A configuration with `class_specific = False` where only
`loss_weight_sep` is nonzero. -/
def cfgNoCS : ModuleCfg :=
  { last_layer_only := false, class_specific := false, num_warm_epochs := 0
    loss_weight_crs_ent := 0, loss_weight_clst := 0, loss_weight_sep := 1
    loss_weight_l1 := 0, warmup_batches := 0, gradient_clipping := none }

/-- A freshly initialized module state. -/
def initialState : ModuleState :=
  { metrics := MetricsMap.allReset, warm_optim := zeroOptimizer
    main_optim := zeroOptimizer, ppnet_version := 0, grad_version := 0
    best_acc := 0, current_epoch := 0, global_step := 0 }

/-- A batch whose only nonzero computed quantity is the (unmasked) L1 norm
of the last layer. -/
def beL1 : BatchEval :=
  { cross_entropy := 0, cs_cluster_cost := 0, cs_separation_cost := 0
    cs_avg_separation_cost := 0, cs_l1 := 0, ncs_cluster_cost := 0, ncs_l1 := 1
    batch_size := 1, n_correct := 1 }

/-- C1 counterexample: with `class_specific = False`, `loss_weight_sep = 1`,
`loss_weight_l1 = 0` and a batch whose L1 norm is `1` (all other terms
zero), a validation step accumulates loss `1` — the source multiplies the
L1 norm by `loss_weight_sep` in that branch — while the claimed weighted
four-term sum is `0` (separation cost is `0` there and `loss_weight_l1 =
0`), so the claim fails on this input. -/
theorem C1_counterexample :
    ¬ ((SlidingWindowModule._step cfgNoCS initialState Split.val beL1).2.metrics.get
        Split.val).loss
      = (initialState.metrics.get Split.val).loss + claimedLoss cfgNoCS beL1 := by
  rw [SlidingWindowModule._step_metrics, MetricsMap.get_set_self]
  norm_num [SlidingWindowModule.stepMetrics, SlidingWindowModule.stepLoss, claimedLoss,
    SlidingWindowModule.clusterCost, SlidingWindowModule.separationCost,
    SlidingWindowModule.l1Term, cfgNoCS, beL1, initialState, MetricsMap.allReset,
    reset_metrics, MetricsMap.get]

/-- C1 (amended): on every step the loss added to the accumulator is — when
`class_specific` is true — exactly the claimed weighted four-term sum; when
`class_specific` is false the separation term is absent and the L1 term is
multiplied by `loss_weight_sep` (not `loss_weight_l1`). -/
theorem C1_amended_loss (cfg : ModuleCfg) (m : ModuleState) (s : Split)
    (be : BatchEval) :
    ((SlidingWindowModule._step cfg m s be).2.metrics.get s).loss
      = (m.metrics.get s).loss
        + (if cfg.class_specific = true then claimedLoss cfg be
           else cfg.loss_weight_crs_ent * be.cross_entropy
             + cfg.loss_weight_clst * SlidingWindowModule.clusterCost cfg be
             + cfg.loss_weight_sep * SlidingWindowModule.l1Term cfg be) := by
  rw [SlidingWindowModule._step_metrics, MetricsMap.get_set_self]
  cases hcs : cfg.class_specific <;>
    simp [SlidingWindowModule.stepMetrics, SlidingWindowModule.stepLoss, claimedLoss,
      SlidingWindowModule.clusterCost, SlidingWindowModule.separationCost,
      SlidingWindowModule.l1Term, hcs]

/-! ### C2-C5: phase schedule, checkpointing, manual stepping, metrics -/

/-- C2: the phase schedule.  With `last_layer_only = False`,
`on_train_epoch_start` invokes `warm_only` for epochs before
`num_warm_epochs` and `joint` from then on, and the training step drives
the warm optimizer during warm-up epochs and the main optimizer afterwards;
with `last_layer_only = True` it invokes `last_only` and the training step
always drives the main (last-layer) optimizer.  Driving an optimizer means
its `step_count` advances while the other optimizer is untouched. -/
theorem C2_phase_schedule (cfg : ModuleCfg) (m : ModuleState) (be : BatchEval) :
    (cfg.last_layer_only = true →
      (SlidingWindowModule.on_train_epoch_start cfg m).1 = PhaseFn.last_only
      ∧ SlidingWindowModule.chosenOptimizer cfg m = OptTag.main)
    ∧ (cfg.last_layer_only = false → m.current_epoch < cfg.num_warm_epochs →
      (SlidingWindowModule.on_train_epoch_start cfg m).1 = PhaseFn.warm_only
      ∧ SlidingWindowModule.chosenOptimizer cfg m = OptTag.warm)
    ∧ (cfg.last_layer_only = false → cfg.num_warm_epochs ≤ m.current_epoch →
      (SlidingWindowModule.on_train_epoch_start cfg m).1 = PhaseFn.joint
      ∧ SlidingWindowModule.chosenOptimizer cfg m = OptTag.main)
    ∧ ((SlidingWindowModule.training_step cfg m be).2.getOptim
        (SlidingWindowModule.chosenOptimizer cfg m)).step_count
      = (m.getOptim (SlidingWindowModule.chosenOptimizer cfg m)).step_count + 1
    ∧ (∀ t, t ≠ SlidingWindowModule.chosenOptimizer cfg m →
        (SlidingWindowModule.training_step cfg m be).2.getOptim t = m.getOptim t) := by
  refine ⟨?_, ?_, ?_, ?_, ?_⟩
  · intro h
    simp [SlidingWindowModule.on_train_epoch_start, SlidingWindowModule.phaseChoice,
      SlidingWindowModule.chosenOptimizer, h]
  · intro h hlt
    simp [SlidingWindowModule.on_train_epoch_start, SlidingWindowModule.phaseChoice,
      SlidingWindowModule.chosenOptimizer, h, hlt]
  · intro h hge
    simp [SlidingWindowModule.on_train_epoch_start, SlidingWindowModule.phaseChoice,
      SlidingWindowModule.chosenOptimizer, h, Nat.not_lt.mpr hge]
  · unfold SlidingWindowModule.training_step SlidingWindowModule._step
    simp only [reduceIte]
    cases htag : SlidingWindowModule.chosenOptimizer cfg m <;>
      simp [htag, ModuleState.getOptim, ModuleState.setOptim,
        update_lr_warmup_step_count]
  · intro t ht
    unfold SlidingWindowModule.training_step SlidingWindowModule._step
    simp only [reduceIte]
    cases htag : SlidingWindowModule.chosenOptimizer cfg m <;> cases t <;>
      simp_all [ModuleState.getOptim, ModuleState.setOptim]

/-- C3: conditional checkpointing.  `on_validation_epoch_end` triggers the
`'<stage>_best'` save exactly when the epoch's validation accuracy strictly
exceeds `best_acc`, in which case `best_acc` becomes that accuracy (so
`best_acc` never decreases), and it triggers the `'<stage>_last'` save on
every call. -/
theorem C3_conditional_checkpointing (cfg : ModuleCfg) (m : ModuleState) :
    (({ model_name := SlidingWindowModule.stageKey cfg m ++ "_best",
        accu := SlidingWindowModule.valAcc m, target_accu := 0 } : SaveEvent)
      ∈ (SlidingWindowModule.on_validation_epoch_end cfg m).1
      ↔ m.best_acc < SlidingWindowModule.valAcc m)
    ∧ (SlidingWindowModule.on_validation_epoch_end cfg m).2.best_acc
      = (if m.best_acc < SlidingWindowModule.valAcc m then SlidingWindowModule.valAcc m
         else m.best_acc)
    ∧ m.best_acc ≤ (SlidingWindowModule.on_validation_epoch_end cfg m).2.best_acc
    ∧ ({ model_name := SlidingWindowModule.stageKey cfg m ++ "_last",
         accu := SlidingWindowModule.valAcc m, target_accu := 0 } : SaveEvent)
      ∈ (SlidingWindowModule.on_validation_epoch_end cfg m).1 := by
  by_cases h : m.best_acc < SlidingWindowModule.valAcc m
  · simp [SlidingWindowModule.on_validation_epoch_end, h, le_of_lt h]
  · simp [SlidingWindowModule.on_validation_epoch_end, h, SaveEvent.mk.injEq,
      append_best_ne_append_last (SlidingWindowModule.stageKey cfg m)]

/-- C4: gradient stepping is manual and confined to training.  `_step`
performs optimizer operations (the lr warm-up call, `zero_grad`, manual
backward, optional gradient clipping, `optimizer.step`) if and only if the
split is `'train'`; on every validation or test step the whole module state
is unchanged except the stepped split's metric accumulators (in particular
parameters, gradients and both optimizers are untouched), and the metrics
of every other split are never modified. -/
theorem C4_manual_stepping_train_only (cfg : ModuleCfg) (m : ModuleState)
    (s : Split) (be : BatchEval) :
    ((SlidingWindowModule._step cfg m s be).1 ≠ [] ↔ s = Split.train)
    ∧ (s = Split.train →
        (SlidingWindowModule._step cfg m s be).1
          = [OptimEvent.lr_warmup_call (SlidingWindowModule.chosenOptimizer cfg m)
               m.global_step,
             OptimEvent.zero_grad (SlidingWindowModule.chosenOptimizer cfg m),
             OptimEvent.backward]
            ++ (match cfg.gradient_clipping with
                | some c => [OptimEvent.clip_grad c]
                | none => [])
            ++ [OptimEvent.optstep (SlidingWindowModule.chosenOptimizer cfg m)])
    ∧ (s ≠ Split.train →
        (SlidingWindowModule._step cfg m s be).2
          = { m with
              metrics :=
                m.metrics.set s (SlidingWindowModule.stepMetrics cfg be (m.metrics.get s)) })
    ∧ (∀ t, t ≠ s →
        (SlidingWindowModule._step cfg m s be).2.metrics.get t = m.metrics.get t) := by
  refine ⟨?_, ?_, ?_, ?_⟩
  · unfold SlidingWindowModule._step
    cases s <;> simp
  · intro h
    subst h
    simp [SlidingWindowModule._step]
  · intro h
    simp [SlidingWindowModule._step, h]
  · intro t ht
    rw [SlidingWindowModule._step_metrics, MetricsMap.get_set_of_ne _ _ _ _ ht]

/-- C5: the metric-accumulation invariant.  Every `_step` on split `s` adds
`1` to `n_batches`, the batch size to `n_examples`, the number of correct
predictions to `n_correct`, and the batch's loss-term values to the
corresponding accumulators of `metrics[s]` (`separation_cost` and
`avg_separation_cost` only accumulate in the `class_specific` branch, where
they are computed); the metrics of every other split are unchanged; and
`on_train_epoch_start` resets all four splits to the all-zero dictionary
`reset_metrics` produces. -/
theorem C5_metric_accumulation (cfg : ModuleCfg) (m : ModuleState) (s : Split)
    (be : BatchEval) :
    ((SlidingWindowModule._step cfg m s be).2.metrics.get s).n_batches
      = (m.metrics.get s).n_batches + 1
    ∧ ((SlidingWindowModule._step cfg m s be).2.metrics.get s).n_examples
      = (m.metrics.get s).n_examples + be.batch_size
    ∧ ((SlidingWindowModule._step cfg m s be).2.metrics.get s).n_correct
      = (m.metrics.get s).n_correct + be.n_correct
    ∧ ((SlidingWindowModule._step cfg m s be).2.metrics.get s).cross_entropy
      = (m.metrics.get s).cross_entropy + be.cross_entropy
    ∧ ((SlidingWindowModule._step cfg m s be).2.metrics.get s).cluster_cost
      = (m.metrics.get s).cluster_cost + SlidingWindowModule.clusterCost cfg be
    ∧ ((SlidingWindowModule._step cfg m s be).2.metrics.get s).loss
      = (m.metrics.get s).loss + SlidingWindowModule.stepLoss cfg be
    ∧ ((SlidingWindowModule._step cfg m s be).2.metrics.get s).separation_cost
      = (m.metrics.get s).separation_cost
        + (if cfg.class_specific = true then be.cs_separation_cost else 0)
    ∧ ((SlidingWindowModule._step cfg m s be).2.metrics.get s).avg_separation_cost
      = (m.metrics.get s).avg_separation_cost
        + (if cfg.class_specific = true then be.cs_avg_separation_cost else 0)
    ∧ (∀ t, t ≠ s →
        (SlidingWindowModule._step cfg m s be).2.metrics.get t = m.metrics.get t)
    ∧ (SlidingWindowModule.on_train_epoch_start cfg m).2.metrics = MetricsMap.allReset := by
  refine ⟨?_, ?_, ?_, ?_, ?_, ?_, ?_, ?_, ?_, rfl⟩ <;>
    first
      | (intro t ht; rw [SlidingWindowModule._step_metrics, MetricsMap.get_set_of_ne _ _ _ _ ht])
      | (rw [SlidingWindowModule._step_metrics, MetricsMap.get_set_self]
         simp [SlidingWindowModule.stepMetrics])

/-! ### C8: learning-rate warm-up -/

/-- C8: `update_lr_warmup` leaves the optimizer untouched unless
`warmup_batches > 0` and `current_step < warmup_batches`; inside that
window it sets every param group's lr to
`min(1, (current_step + 1) / warmup_batches)` times the optimizer's default
lr; consequently (for a nonnegative default lr) the warm-up lr never
exceeds the default lr and is nondecreasing in `current_step`. -/
theorem C8_lr_warmup (o : OptimizerState) (current_step : Nat)
    (warmup_batches : Int) :
    (¬ (0 < warmup_batches ∧ (current_step : Int) < warmup_batches) →
        update_lr_warmup o current_step warmup_batches = o)
    ∧ (0 < warmup_batches → (current_step : Int) < warmup_batches →
        (update_lr_warmup o current_step warmup_batches).lrs
          = o.lrs.map (fun _ =>
              min 1 (((current_step : Rat) + 1) / (warmup_batches : Rat))
                * o.default_lr))
    ∧ (0 ≤ o.default_lr → 0 < warmup_batches → (current_step : Int) < warmup_batches →
        ∀ lr ∈ (update_lr_warmup o current_step warmup_batches).lrs,
          lr ≤ o.default_lr)
    ∧ (0 ≤ o.default_lr → 0 < warmup_batches →
        ∀ s1 s2 : Nat, s1 ≤ s2 → (s2 : Int) < warmup_batches →
          ∀ lr1 ∈ (update_lr_warmup o s1 warmup_batches).lrs,
          ∀ lr2 ∈ (update_lr_warmup o s2 warmup_batches).lrs, lr1 ≤ lr2) := by
  refine ⟨?_, ?_, ?_, ?_⟩
  · intro h
    unfold update_lr_warmup
    split_ifs with h1 h2
    · exact absurd ⟨h1, h2⟩ h
    · rfl
    · rfl
  · intro h1 h2
    simp [update_lr_warmup, h1, h2]
  · intro hd h1 h2 lr hlr
    simp only [update_lr_warmup, h1, h2, if_true] at hlr
    obtain ⟨a, _, rfl⟩ := List.mem_map.mp hlr
    calc min 1 (((current_step : Rat) + 1) / (warmup_batches : Rat)) * o.default_lr
        ≤ 1 * o.default_lr := mul_le_mul_of_nonneg_right (min_le_left _ _) hd
      _ = o.default_lr := one_mul _
  · intro hd hw s1 s2 h12 hs2 lr1 hlr1 lr2 hlr2
    have hs1 : (s1 : Int) < warmup_batches :=
      lt_of_le_of_lt (by exact_mod_cast h12) hs2
    simp only [update_lr_warmup, hw, hs1, hs2, if_true] at hlr1 hlr2
    obtain ⟨a1, _, rfl⟩ := List.mem_map.mp hlr1
    obtain ⟨a2, _, rfl⟩ := List.mem_map.mp hlr2
    have hwq : (0 : Rat) < (warmup_batches : Rat) := by exact_mod_cast hw
    have hnum : ((s1 : Rat) + 1) ≤ ((s2 : Rat) + 1) := by
      have : (s1 : Rat) ≤ (s2 : Rat) := by exact_mod_cast h12
      linarith
    have hdiv : ((s1 : Rat) + 1) / (warmup_batches : Rat)
        ≤ ((s2 : Rat) + 1) / (warmup_batches : Rat) :=
      (div_le_div_iff_of_pos_right hwq).mpr hnum
    exact mul_le_mul_of_nonneg_right (min_le_min le_rfl hdiv) hd
